import Mathlib

/-!
Verification of the node-kuwe SDK core against its specification.

The development shallowly embeds the credential-typed integration base
class (src/integrations/base.ts), the top-level client constructor
(src/app.ts), the OpenAI integration (src/integrations/openai), and the
response-envelope shaping of the LinkedIn, Gmail and Google Sheets
integration methods.  External effects (the Nango credential store, the
proxy client, the OpenAI client) are modelled as explicit parameters:
a fetch that either yields a value or throws is an `Except String`
argument, mirroring the awaited promise at the call site.
-/

namespace Kuwe

/-- Credential record, the tagged union from src/integrations/base.ts
(interfaces OAuth2Credentials, OAuth1Credentials, BasicAuthCredentials,
ApiKeyCredentials).  The extra `unknownTag` constructor represents a
runtime record whose `type` tag is none of the four known values, the
case handled by the `default` branch of the source's switch statements. -/
inductive AuthCredentials where
  | oauth2 (access_token : String) (refresh_token : Option String)
      (expires_at : Option Int) (scope : Option String)
  | oauth1 (oauth_token : String) (oauth_token_secret : String)
  | basic (username : String) (password : String)
  | apiKey (apiKey : String)
  | unknownTag (tag : String)
  deriving DecidableEq, Repr

/-- The `type` discriminant string of a credential record, as the
source's switch statements read it (`credentials.type`). -/
def AuthCredentials.credType : AuthCredentials → String
  | .oauth2 _ _ _ _ => "OAUTH2"
  | .oauth1 _ _ => "OAUTH1"
  | .basic _ _ => "BASIC"
  | .apiKey _ => "API_KEY"
  | .unknownTag t => t

/-- Return type of `getAuthToken`: a plain token string for
OAuth2/OAuth1/ApiKey, a username-password pair for Basic
(type-level `ExtractAuthToken` in the source). -/
inductive AuthToken where
  | str (s : String)
  | basicPair (username : String) (password : String)
  deriving DecidableEq, Repr

/-- The switch body of `Integration.getAuthToken`
(src/integrations/base.ts lines 110-128): dispatch on the credential
tag, returning the variant's primary token, or throwing a descriptive
error naming the unexpected tag in the default branch. -/
def extractAuthToken : AuthCredentials → Except String AuthToken
  | .oauth2 access_token _ _ _ => .ok (.str access_token)
  | .oauth1 oauth_token _ => .ok (.str oauth_token)
  | .basic username password => .ok (.basicPair username password)
  | .apiKey apiKey => .ok (.str apiKey)
  | .unknownTag t => .error ("Unsupported authentication type: " ++ t)

/-- `Integration.getConnCredentials`: awaits the store lookup and
returns its credentials field.  The lookup's behaviour, value or thrown
error, is the `fetch` argument; a thrown error propagates (there is no
try/catch in the source method). -/
def getConnCredentials (fetch : Except String AuthCredentials) :
    Except String AuthCredentials :=
  fetch

/-- `Integration.getAuthToken`: awaits `getConnCredentials` (a thrown
fetch error propagates) and then dispatches on the credential tag. -/
def getAuthToken (fetch : Except String AuthCredentials) :
    Except String AuthToken :=
  match getConnCredentials fetch with
  | .error e => .error e
  | .ok credentials => extractAuthToken credentials

/-- Result record of `validateConnection`: isValid flag plus an
optional error string (absent on the valid result). -/
structure ValidationResult where
  isValid : Bool
  error : Option String
  deriving DecidableEq, Repr

/-- The switch body of `Integration.validateConnection`
(src/integrations/base.ts lines 139-164): per-tag check that the
required fields are non-empty (JavaScript falsiness of a string field
is emptiness), falling through to the valid result. -/
def validateCredentials : AuthCredentials → ValidationResult
  | .oauth2 access_token _ _ _ =>
      if access_token = "" then ⟨false, some "Missing access token"⟩
      else ⟨true, none⟩
  | .oauth1 oauth_token _ =>
      if oauth_token = "" then ⟨false, some "Missing OAuth token"⟩
      else ⟨true, none⟩
  | .basic username password =>
      if username = "" ∨ password = "" then
        ⟨false, some "Missing username or password"⟩
      else ⟨true, none⟩
  | .apiKey apiKey =>
      if apiKey = "" then ⟨false, some "Missing API key"⟩
      else ⟨true, none⟩
  | .unknownTag _ => ⟨false, some "Unknown authentication type"⟩

/-- `Integration.validateConnection`: the whole fetch-and-check
sequence sits in a try/catch whose catch translates a thrown error into
the structured invalid result carrying the error's message. -/
def validateConnection (fetch : Except String AuthCredentials) :
    ValidationResult :=
  match getConnCredentials fetch with
  | .error e => ⟨false, some e⟩
  | .ok credentials => validateCredentials credentials

/-- A proxy request specification.  The two fields the base class
manages are explicit; `rest` stands for all remaining caller-supplied
fields (method, endpoint, baseUrlOverride, data, headers, ...), which a
JavaScript object spread copies wholesale. -/
structure ProxyConfig (α : Type) where
  providerConfigKey : Option String
  connectionId : Option String
  rest : α
  deriving DecidableEq, Repr

/-- `Integration.proxyRequest` (src/integrations/base.ts lines 83-93):
spreads the caller's config and then sets `providerConfigKey` to the
integration's own key, then spreads the result and sets `connectionId`
to the instance's connection id; the result is what is handed to the
proxy client.  Writing the field after the spread overrides any value
that the spread copied in. -/
def proxyRequest {α : Type} (providerConfigKey : String)
    (connectionId : String) (config : ProxyConfig α) : ProxyConfig α :=
  let fullConfig := { config with providerConfigKey := some providerConfigKey }
  { fullConfig with connectionId := some connectionId }

/-- JavaScript `a || b` over possibly-undefined string values: an
undefined or empty left operand falls back to the right operand. -/
def jsOr (a b : Option String) : Option String :=
  match a with
  | none => b
  | some s => if s = "" then b else some s

/-- JavaScript truthiness of a possibly-undefined string: defined and
non-empty. -/
def truthy : Option String → Bool
  | none => false
  | some s => !(s = "")

/-- JavaScript `a || b` where `a` is a possibly-undefined string and
`b` a plain string default. -/
def jsOrStr (a : Option String) (b : String) : String :=
  match a with
  | none => b
  | some s => if s = "" then b else s

/-- Constructor options of the top-level client (KuweAIConfig in
src/app.ts): both fields optional. -/
structure KuweAIConfig where
  connectionId : Option String
  secretKey : Option String
  deriving DecidableEq, Repr

/-- The environment variables the constructors read:
NANGO_CONNECTION_ID, NANGO_SECRET_KEY and OPENAI_API_KEY, each possibly
unset. -/
structure Env where
  nangoConnectionId : Option String
  nangoSecretKey : Option String
  openaiApiKey : Option String
  deriving DecidableEq, Repr

/-- The error message thrown by the KuweAI constructor when the
resolved connection id or secret key is missing (src/app.ts). -/
def kuweAIRequiredMsg : String :=
  "Nango connection ID and secret key are required. Provide them via constructor options or set NANGO_CONNECTION_ID and NANGO_SECRET_KEY environment variables."

/-- The validation prefix of the KuweAI constructor (src/app.ts lines
45-57): resolve each input with its environment fallback, throw the
descriptive error if either resolved value is falsy, otherwise keep
the resolved connection id and secret key. -/
def kuweValidate (config : KuweAIConfig) (env : Env) :
    Except String (String × String) :=
  let connectionId := jsOr config.connectionId env.nangoConnectionId
  let secretKey := jsOr config.secretKey env.nangoSecretKey
  if !truthy connectionId || !truthy secretKey then
    .error kuweAIRequiredMsg
  else
    .ok (connectionId.getD "", secretKey.getD "")

/-- The constructed OpenAI client: holds the resolved API key. -/
structure OpenAIClient where
  apiKey : String
  deriving DecidableEq, Repr

/-- The error message thrown by the OpenAIIntegration constructor when
no API key is available (src/integrations/openai). -/
def openAIRequiredMsg : String :=
  "OpenAI API key is required. Set OPENAI_API_KEY environment variable or pass it to the constructor."

/-- `OpenAIIntegration` constructor: use the provided API key or fall
back to the OPENAI_API_KEY environment variable; throw if the result is
falsy, otherwise build the client. -/
def openAIConstruct (apiKey : Option String) (envKey : Option String) :
    Except String OpenAIClient :=
  let key := jsOr apiKey envKey
  if !truthy key then .error openAIRequiredMsg
  else .ok ⟨key.getD ""⟩

/-- The constructed KuweAI client state: the connection id, the Nango
client (identified by its secret key) and the OpenAI client.  The
integration instances it wires up share the Nango reference and
connection id. -/
structure KuweAIState where
  connectionId : String
  nangoSecretKey : String
  openai : OpenAIClient
  deriving DecidableEq, Repr

/-- The full KuweAI constructor (src/app.ts lines 45-64): validate the
connection id and secret key, then initialize the integrations; the
OpenAI integration is always instantiated with no argument, so its
constructor sees only the environment variable. -/
def kuweConstruct (config : KuweAIConfig) (env : Env) :
    Except String KuweAIState :=
  match kuweValidate config env with
  | .error e => .error e
  | .ok (connectionId, secretKey) =>
      match openAIConstruct none env.openaiApiKey with
      | .error e => .error e
      | .ok openai => .ok ⟨connectionId, secretKey, openai⟩

/-- Decides whether `pat` is a prefix of `s` (character lists). -/
def charsStartsWith : List Char → List Char → Bool
  | _, [] => true
  | [], _ :: _ => false
  | a :: as, b :: bs => a = b && charsStartsWith as bs

/-- Decides whether `pat` occurs contiguously inside `s` (character
lists). -/
def charsContains (s pat : List Char) : Bool :=
  match s with
  | [] => pat.isEmpty
  | _ :: rest => charsStartsWith s pat || charsContains rest pat

/-- String containment check used to state that an error message
mentions a required input. -/
def mentions (s pat : String) : Bool :=
  charsContains s.data pat.data

/-- A JSON-like value, used to state the shape of the object literals
the integration methods return. -/
inductive Json where
  | null
  | bool (b : Bool)
  | num (n : Int)
  | str (s : String)
  | arr (elems : List Json)
  | obj (fields : List (String × Json))

/-- Top-level keys of a JSON object, in literal order. -/
def Json.keys : Json → List String
  | .obj fields => fields.map Prod.fst
  | _ => []

/-- Top-level field lookup in a JSON object. -/
def Json.get (j : Json) (key : String) : Option Json :=
  match j with
  | .obj fields => fields.lookup key
  | _ => none

/-- Embed a possibly-absent string into a JSON value. -/
def jsonOfOpt : Option String → Json
  | some s => .str s
  | none => .null

/-- The value `GmailIntegration.sendEmail` returns on its happy path
(src/integrations/google-mail/google-mail.ts lines 74-78): the envelope
object literal around the upstream response data. -/
def gmailSendEmailReturn (responseData : Json) : Json :=
  .obj [("success", .bool true), ("data", responseData),
        ("message", .str "Email sent successfully")]

/-- The value `GoogleSheetsIntegration.writeRange` returns on its happy
path (src/integrations/google-sheets lines 273-277). -/
def sheetsWriteRangeReturn (responseData : Json) : Json :=
  .obj [("success", .bool true), ("data", responseData),
        ("message", .str "Range updated successfully")]

/-- An HTTP Response object as produced by `Response.json(body, init)`:
status (200 when no init is given) and the JSON body. -/
structure HttpResponse where
  status : Nat
  body : Json

/-- `LinkedInIntegration.createTextPost`
(src/integrations/linkedin/linkedin.ts): fetches the user info through
the proxy; if `data.sub` is falsy it returns a 400 `Response.json` with
a success-false error body; otherwise it posts and returns a
`Response.json` whose body nests postId, postUrl and the message string
inside `data`.  The two proxy responses are the arguments: the user
info `sub` field and the post response's `id` and `permalink` fields,
each possibly absent. -/
def createTextPost (userInfoSub : Option String)
    (postId postUrl : Option String) : HttpResponse :=
  if !truthy userInfoSub then
    ⟨400, .obj [("success", .bool false),
                ("error", .str "LinkedIn user ID not found")]⟩
  else
    ⟨200, .obj [("success", .bool true),
                ("data", .obj [("postId", jsonOfOpt postId),
                               ("postUrl", jsonOfOpt postUrl),
                               ("message", .str "Post created successfully")])]⟩

/-- An OpenAI chat message: its `content`, possibly absent. -/
structure ChatMessage where
  content : Option String
  deriving DecidableEq, Repr

/-- An OpenAI chat choice: its `message`, possibly absent. -/
structure ChatChoice where
  message : Option ChatMessage
  deriving DecidableEq, Repr

/-- An OpenAI chat completion response: its list of choices. -/
structure ChatResponse where
  choices : List ChatChoice
  deriving DecidableEq, Repr

/-- Result record of `OpenAIIntegration.createChatCompletion`: the
success branch has data and message and no error key; the catch branch
has error and message and no data key. -/
structure ChatResult where
  success : Bool
  data : Option ChatResponse
  error : Option String
  message : String
  deriving DecidableEq, Repr

/-- `OpenAIIntegration.createChatCompletion`: the client call sits in a
try/catch; its behaviour (response or thrown error) is the argument.
The success branch wraps the response, the catch branch reports the
error message with the fixed failure message. -/
def createChatCompletion (call : Except String ChatResponse) : ChatResult :=
  match call with
  | .ok response =>
      ⟨true, some response, none, "Chat completion created successfully"⟩
  | .error e =>
      ⟨false, none, some e, "Failed to create chat completion"⟩

/-- The `data.choices[0]?.message?.content` optional chain of
`OpenAIIntegration.complete`. -/
def firstContent (r : ChatResponse) : Option String :=
  match r.choices with
  | [] => none
  | c :: _ =>
      match c.message with
      | none => none
      | some m => m.content

/-- `OpenAIIntegration.complete`: delegates to `createChatCompletion`;
if that reports failure it throws an Error carrying the reported error
(or the fallback text when that is falsy); if the response data or its
first choice's content is missing or falsy it throws the
invalid-format error; otherwise it returns the content string. -/
def complete (call : Except String ChatResponse) : Except String String :=
  let response := createChatCompletion call
  if response.success = false then
    .error (jsOrStr response.error "Failed to create completion")
  else
    match response.data with
    | none => .error "Invalid response format from OpenAI"
    | some d =>
        match firstContent d with
        | none => .error "Invalid response format from OpenAI"
        | some content =>
            if content = "" then .error "Invalid response format from OpenAI"
            else .ok content

/-- The per-instance state of an `Integration`: exactly the
construction-time fields of src/integrations/base.ts lines 75-78, a
reference to the shared Nango proxy client (of abstract type, since the
base class only stores it) and the connection id.  No method of the
class assigns to either field. -/
structure IntegrationState (N : Type) where
  nango : N
  connectionId : String
  deriving DecidableEq, Repr

/-- `getConnCredentials` as a state-passing operation: the store's
behaviour at this call is `store`; the method reads `this.nango` and
`this.connectionId` and writes neither, so the state comes back
unchanged. -/
def getConnCredentialsS {N : Type} (st : IntegrationState N)
    (store : Except String AuthCredentials) :
    Except String AuthCredentials × IntegrationState N :=
  (getConnCredentials store, st)

/-- `getAuthToken` as a state-passing operation: re-fetches the
credential record through `getConnCredentials` on this very call and
dispatches on it; the state comes back unchanged. -/
def getAuthTokenS {N : Type} (st : IntegrationState N)
    (store : Except String AuthCredentials) :
    Except String AuthToken × IntegrationState N :=
  (getAuthToken store, st)

/-- `validateConnection` as a state-passing operation: re-fetches the
credential record on this very call; the state comes back unchanged. -/
def validateConnectionS {N : Type} (st : IntegrationState N)
    (store : Except String AuthCredentials) :
    ValidationResult × IntegrationState N :=
  (validateConnection store, st)

/-- C1: for every credential record with a known tag, `getAuthToken`
returns the variant's primary token: the access token string for
OAuth2, the oauth token string for OAuth1 (independent of the token
secret), the username-password pair for Basic, and the API key string
for ApiKey; in particular the stubbed OAuth2 record with access token
"tok123" yields "tok123". -/
theorem getAuthToken_known_variants :
    (∀ t r e s, getAuthToken (.ok (.oauth2 t r e s)) = .ok (.str t)) ∧
    (∀ t sec, getAuthToken (.ok (.oauth1 t sec)) = .ok (.str t)) ∧
    (∀ u p, getAuthToken (.ok (.basic u p)) = .ok (.basicPair u p)) ∧
    (∀ k, getAuthToken (.ok (.apiKey k)) = .ok (.str k)) ∧
    getAuthToken (.ok (.oauth2 "tok123" none none none)) = .ok (.str "tok123") :=
  ⟨fun _ _ _ _ => rfl, fun _ _ => rfl, fun _ _ => rfl, fun _ => rfl, rfl⟩

/-- C2: the request `proxyRequest` forwards to the proxy client equals
the caller's spec with exactly the two managed fields overridden, the
provider config key set to the integration's own and the connection id
to the instance's, while every other field is forwarded unmodified. -/
theorem proxyRequest_merges_and_preserves :
    ∀ (α : Type) (pck cid : String) (config : ProxyConfig α),
      (proxyRequest pck cid config).providerConfigKey = some pck ∧
      (proxyRequest pck cid config).connectionId = some cid ∧
      (proxyRequest pck cid config).rest = config.rest :=
  fun _ _ _ _ => ⟨rfl, rfl, rfl⟩

/-- C3: `validateConnection` never throws: for every behaviour of the
credential fetch it returns a structured result, and when the fetch
throws it reports isValid false with the error's message; every
invalid result carries an error message; by contrast `getAuthToken`
and `getConnCredentials` let a fetch error propagate unchanged. -/
theorem validateConnection_never_throws :
    (∀ e, validateConnection (.error e) = ⟨false, some e⟩) ∧
    (∀ fetch, (validateConnection fetch).isValid = true ∨
      ((validateConnection fetch).isValid = false ∧
        (validateConnection fetch).error ≠ none)) ∧
    (∀ e, getAuthToken (.error e) = .error e) ∧
    (∀ e, getConnCredentials (.error e) = .error e) := by
  refine ⟨fun _ => rfl, ?_, fun _ => rfl, fun _ => rfl⟩
  intro fetch
  match fetch with
  | .error e => exact Or.inr ⟨rfl, by simp [validateConnection, getConnCredentials]⟩
  | .ok credentials =>
      cases credentials with
      | oauth2 t r e s =>
          by_cases h : t = "" <;>
            simp [validateConnection, getConnCredentials, validateCredentials, h]
      | oauth1 t sec =>
          by_cases h : t = "" <;>
            simp [validateConnection, getConnCredentials, validateCredentials, h]
      | basic u p =>
          by_cases h : u = "" ∨ p = "" <;>
            simp [validateConnection, getConnCredentials, validateCredentials, h]
      | apiKey k =>
          by_cases h : k = "" <;>
            simp [validateConnection, getConnCredentials, validateCredentials, h]
      | unknownTag t =>
          simp [validateConnection, getConnCredentials, validateCredentials]

/-- C4: for every credential record with a known tag,
`validateConnection` reports valid exactly when the tag's required
fields are non-empty, and otherwise reports invalid with the tag's
reason; in particular the Basic record with username "u" and empty
password yields the missing-username-or-password result. -/
theorem validateConnection_required_fields :
    (∀ t r e s, validateConnection (.ok (.oauth2 t r e s)) =
      if t = "" then ⟨false, some "Missing access token"⟩
      else ⟨true, none⟩) ∧
    (∀ t sec, validateConnection (.ok (.oauth1 t sec)) =
      if t = "" then ⟨false, some "Missing OAuth token"⟩
      else ⟨true, none⟩) ∧
    (∀ u p, validateConnection (.ok (.basic u p)) =
      if u = "" ∨ p = "" then ⟨false, some "Missing username or password"⟩
      else ⟨true, none⟩) ∧
    (∀ k, validateConnection (.ok (.apiKey k)) =
      if k = "" then ⟨false, some "Missing API key"⟩
      else ⟨true, none⟩) ∧
    validateConnection (.ok (.basic "u" "")) =
      ⟨false, some "Missing username or password"⟩ :=
  ⟨fun _ _ _ _ => rfl, fun _ _ => rfl, fun _ _ => rfl, fun _ => rfl,
    by decide⟩

/-- C5: for a credential record whose tag is none of the four known
variants, `getAuthToken` throws the descriptive error naming the
unexpected tag and never returns a token. -/
theorem getAuthToken_unsupported_type (tag : String)
    (_h : tag ≠ "OAUTH2" ∧ tag ≠ "OAUTH1" ∧ tag ≠ "BASIC" ∧ tag ≠ "API_KEY") :
    getAuthToken (.ok (.unknownTag tag)) =
      .error ("Unsupported authentication type: " ++ tag) ∧
    ∀ tok, getAuthToken (.ok (.unknownTag tag)) ≠ .ok tok :=
  ⟨rfl, fun _ h2 => by simp [getAuthToken, getConnCredentials,
    extractAuthToken] at h2⟩

/-- Witness for C5 at the concrete tag "UNKNOWN_TAG". -/
theorem getAuthToken_unsupported_type_witness :
    getAuthToken (.ok (.unknownTag "UNKNOWN_TAG")) =
      .error ("Unsupported authentication type: " ++ "UNKNOWN_TAG") ∧
    ∀ tok, getAuthToken (.ok (.unknownTag "UNKNOWN_TAG")) ≠ .ok tok :=
  getAuthToken_unsupported_type "UNKNOWN_TAG"
    ⟨by decide, by decide, by decide, by decide⟩

/-- C6 divergence: on its happy path the LinkedIn `createTextPost`
returns an HTTP Response object whose JSON body has exactly the keys
success and data, with no top-level message key (the message string is
nested inside data), while the Gmail and Google Sheets happy-path
envelopes do have exactly the success, data, message shape the
repository documents for every integration method. -/
theorem createTextPost_envelope_divergence :
    (createTextPost (some "user123") (some "share1") (some "url1")).status
        = 200 ∧
    (createTextPost (some "user123") (some "share1") (some "url1")).body.keys
        = ["success", "data"] ∧
    (((createTextPost (some "user123") (some "share1")
        (some "url1")).body.keys.contains "message") = false) ∧
    ((createTextPost (some "user123") (some "share1")
        (some "url1")).body.get "data").isSome = true ∧
    (∀ d, (gmailSendEmailReturn d).keys = ["success", "data", "message"]) ∧
    (∀ d, (sheetsWriteRangeReturn d).keys = ["success", "data", "message"]) := by
  refine ⟨rfl, by decide, by decide, ?_, fun _ => rfl, fun _ => rfl⟩
  rfl

/-- C7: the top-level constructor's validation fails, with the error
message that mentions both the connection id and the secret key,
exactly when after the environment fallback either input is absent
(undefined or empty); when both are present it passes, keeping the
resolved pair. -/
theorem kuweValidate_requires_both :
    (∀ config env,
      kuweValidate config env =
        if truthy (jsOr config.connectionId env.nangoConnectionId) = false ∨
            truthy (jsOr config.secretKey env.nangoSecretKey) = false then
          .error kuweAIRequiredMsg
        else
          .ok ((jsOr config.connectionId env.nangoConnectionId).getD "",
               (jsOr config.secretKey env.nangoSecretKey).getD "")) ∧
    mentions kuweAIRequiredMsg "connection ID" = true ∧
    mentions kuweAIRequiredMsg "secret key" = true := by
  refine ⟨?_, by decide, by decide⟩
  intro config env
  unfold kuweValidate
  cases h1 : truthy (jsOr config.connectionId env.nangoConnectionId) <;>
    cases h2 : truthy (jsOr config.secretKey env.nangoSecretKey) <;>
      simp [h1, h2]

/-- C8: an integration instance's state is exactly its
construction-time fields; no operation mutates it, and `getAuthToken`
and `validateConnection` re-fetch the credential record on each call,
so the result of a later call depends only on the store's behaviour at
that call, never on an earlier fetch. -/
theorem integration_stateless_refetch :
    ∀ (N : Type) (st : IntegrationState N)
      (s1 s2 : Except String AuthCredentials),
      (getConnCredentialsS st s1).2 = st ∧
      (getAuthTokenS st s1).2 = st ∧
      (validateConnectionS st s1).2 = st ∧
      (getAuthTokenS (getAuthTokenS st s1).2 s2).1 = getAuthToken s2 ∧
      (validateConnectionS (validateConnectionS st s1).2 s2).1 =
        validateConnection s2 ∧
      (getConnCredentialsS (getConnCredentialsS st s1).2 s2).1 =
        getConnCredentials s2 :=
  fun _ _ _ _ => ⟨rfl, rfl, rfl, rfl, rfl, rfl⟩

/-- C9: even when the connection id and secret key resolve to present
values, constructing the top-level client throws the OpenAI error
whenever the OPENAI_API_KEY environment variable is absent, because
the constructor always instantiates the OpenAI integration with no
argument. -/
theorem kuweConstruct_requires_openai_key (config : KuweAIConfig) (env : Env)
    (hconn : truthy (jsOr config.connectionId env.nangoConnectionId) = true)
    (hsec : truthy (jsOr config.secretKey env.nangoSecretKey) = true)
    (hkey : truthy env.openaiApiKey = false) :
    kuweConstruct config env = .error openAIRequiredMsg := by
  unfold kuweConstruct kuweValidate openAIConstruct
  simp only [hconn, hsec]
  simp [jsOr, hkey]

/-- Witness for C9: explicit connection id and secret key, no
environment variables at all. -/
theorem kuweConstruct_requires_openai_key_witness :
    kuweConstruct ⟨some "c1", some "s1"⟩ ⟨none, none, none⟩ =
      .error openAIRequiredMsg :=
  kuweConstruct_requires_openai_key ⟨some "c1", some "s1"⟩ ⟨none, none, none⟩
    (by decide) (by decide) (by decide)

/-- C10: `createChatCompletion` returns a structured result for every
behaviour of the client call, the success envelope on a response and
the caught-failure envelope with the fixed failure message on a thrown
error, while `complete` turns such a failure back into a thrown
error carrying the reported message. -/
theorem createChatCompletion_catches_complete_rethrows :
    (∀ r, createChatCompletion (.ok r) =
      ⟨true, some r, none, "Chat completion created successfully"⟩) ∧
    (∀ e, createChatCompletion (.error e) =
      ⟨false, none, some e, "Failed to create chat completion"⟩) ∧
    (∀ e, complete (.error e) =
      .error (if e = "" then "Failed to create completion" else e)) :=
  ⟨fun _ => rfl, fun _ => rfl, fun _ => rfl⟩

end Kuwe
